import Mathlib

/-
  Verification of the algae-cooling-system firmware (dual LM35 temperature
  monitor).  The repository contains a monolithic implementation (main.cpp)
  and a modular one (SensorManager / DisplayManager / SerialCommander over a
  shared SystemState).  We embed both shallowly: analog readings are lists of
  naturals, float arithmetic is modelled over the rationals, serial and LCD
  side effects are modelled as explicit event lists, and the pseudo-random
  values consumed by the fluctuation routine are oracle inputs.
-/

namespace AlgaeCooling

/-! ## Configuration constants (Config.h / main.cpp defines) -/

/-- SAMPLES_PER_READ from Config.h and main.cpp: samples averaged per read. -/
def SAMPLES_PER_READ : Nat := 10

/-- ADC_RESOLUTION from Config.h and main.cpp (10-bit ADC). -/
def ADC_RESOLUTION : ℚ := 1024

/-- REFERENCE_VOLTAGE from Config.h and main.cpp. -/
def REFERENCE_VOLTAGE : ℚ := 5

/-! ## Sensor sampling (readLM35Temperature in main.cpp,
    SensorManager::readLM35 in SensorManager.cpp; identical arithmetic).
    The loop takes SAMPLES_PER_READ consecutive analogRead values; we receive
    them as the list `readings`.  Debug serial printing has no effect on the
    returned value and is omitted here. -/

/-- Embeds readLM35Temperature (main.cpp:111-142) and SensorManager::readLM35
    (SensorManager.cpp:23-47): sum the raw readings, divide by the sample
    count, scale by reference voltage over ADC resolution, times 100. -/
def readLM35 (readings : List Nat) : ℚ :=
  let sum : Nat := readings.sum
  let avgReading : ℚ := (sum : ℚ) / (SAMPLES_PER_READ : ℚ)
  let voltage : ℚ := (avgReading / ADC_RESOLUTION) * REFERENCE_VOLTAGE
  voltage * 100

/-- Claim C1: for a raw sample sequence of length SAMPLES_PER_READ, the
    temperature computed by the sampling operation equals
    (average / ADC_RESOLUTION) * REFERENCE_VOLTAGE * 100, where the average
    is the integer sum of the readings divided by the sample count. -/
theorem C1_readLM35_average (readings : List Nat)
    (h : readings.length = SAMPLES_PER_READ) :
    readLM35 readings =
      ((readings.sum : ℚ) / (readings.length : ℚ)) / ADC_RESOLUTION
        * REFERENCE_VOLTAGE * 100 := by
  rw [readLM35, h]

/-- Concrete instantiation of C1 on ten identical readings of 307. -/
theorem C1_readLM35_average_witness :
    (List.replicate 10 307).length = SAMPLES_PER_READ ∧
      readLM35 (List.replicate 10 307) =
        ((Nat.cast (List.replicate 10 307).sum : ℚ)
            / ((List.replicate 10 307).length : ℚ)) / ADC_RESOLUTION
          * REFERENCE_VOLTAGE * 100 :=
  ⟨by decide, C1_readLM35_average (List.replicate 10 307) (by decide)⟩

/-! ## Synthetic-value fluctuation (addRealisticFluctuation in
    main.cpp:207-232 and SensorManager.cpp:49-72; the two copies are
    line-for-line identical).  The state consists of the two fake
    temperatures together with the function-static baselines and the
    baseSet latch.  The values produced by random() are oracle inputs:
    random(-50,51)/100.0 yields a value in [-0.5, 0.5] and
    random(-200,201)/100.0 yields a value in [-2, 2]. -/

/-- Fake-temperature state: fakeRoomTemp / fakeAlgaeTemp (globals in
    main.cpp, members in SensorManager) plus the statics baseRoom,
    baseAlgae, baseSet of addRealisticFluctuation. -/
structure FluctState where
  fakeRoomTemp : ℚ
  fakeAlgaeTemp : ℚ
  baseRoom : ℚ
  baseAlgae : ℚ
  baseSet : Bool
deriving DecidableEq, Repr

/-- One call's worth of random() draws consumed by the fluctuation
    routine (already divided by 100 as in the source). -/
structure FluctRand where
  roomVar : ℚ
  algaeVar : ℚ
  roomReset : ℚ
  algaeReset : ℚ
deriving DecidableEq, Repr

/-- The ranges the Arduino random() calls guarantee:
    variations in [-0.5, 0.5], reset offsets in [-2, 2]. -/
def validRand (r : FluctRand) : Prop :=
  -(1/2) ≤ r.roomVar ∧ r.roomVar ≤ 1/2 ∧
  -(1/2) ≤ r.algaeVar ∧ r.algaeVar ≤ 1/2 ∧
  -2 ≤ r.roomReset ∧ r.roomReset ≤ 2 ∧
  -2 ≤ r.algaeReset ∧ r.algaeReset ≤ 2

instance (r : FluctRand) : Decidable (validRand r) := by
  unfold validRand; infer_instance

/-- Embeds addRealisticFluctuation (main.cpp:207-232,
    SensorManager.cpp:49-72): add the ±0.5 variation, latch the baselines
    on first call, and reset a value to baseline plus a ±2 offset when it
    strays more than 2.0 from its baseline. -/
def addRealisticFluctuation (r : FluctRand) (s : FluctState) : FluctState :=
  let fr0 := s.fakeRoomTemp + r.roomVar
  let fa0 := s.fakeAlgaeTemp + r.algaeVar
  let br := if s.baseSet then s.baseRoom else fr0
  let ba := if s.baseSet then s.baseAlgae else fa0
  let fr := if 2 < |fr0 - br| then br + r.roomReset else fr0
  let fa := if 2 < |fa0 - ba| then ba + r.algaeReset else fa0
  { fakeRoomTemp := fr, fakeAlgaeTemp := fa,
    baseRoom := br, baseAlgae := ba, baseSet := true }

/-- A sequence of fluctuation calls, oldest draw first. -/
def runFluctuations (s : FluctState) (rs : List FluctRand) : FluctState :=
  rs.foldl (fun t r => addRealisticFluctuation r t) s

/-- After any single call with in-range draws, the baseline latch is set and
    each value is within 2.0 of its (possibly just latched) baseline. -/
lemma addRealisticFluctuation_step_bound (r : FluctRand) (s : FluctState)
    (h : validRand r) :
    (addRealisticFluctuation r s).baseSet = true ∧
    |(addRealisticFluctuation r s).fakeRoomTemp
        - (addRealisticFluctuation r s).baseRoom| ≤ 2 ∧
    |(addRealisticFluctuation r s).fakeAlgaeTemp
        - (addRealisticFluctuation r s).baseAlgae| ≤ 2 := by
  obtain ⟨-, -, -, -, hr1, hr2, ha1, ha2⟩ := h
  simp only [addRealisticFluctuation]
  refine ⟨trivial, ?_, ?_⟩
  · by_cases hb : s.baseSet <;> simp only [hb, if_true, if_false] <;>
      by_cases hc : 2 < |s.fakeRoomTemp + r.roomVar -
        (if s.baseSet = true then s.baseRoom else s.fakeRoomTemp + r.roomVar)| <;>
      simp only [hb, if_true, if_false] at hc ⊢ <;>
      [skip; skip; skip; skip] <;>
      first
        | (rw [if_pos hc]; rw [add_sub_cancel_left]; exact abs_le.mpr ⟨hr1, hr2⟩)
        | (rw [if_neg hc]; exact le_of_not_lt hc)
  · by_cases hb : s.baseSet <;> simp only [hb, if_true, if_false] <;>
      by_cases hc : 2 < |s.fakeAlgaeTemp + r.algaeVar -
        (if s.baseSet = true then s.baseAlgae else s.fakeAlgaeTemp + r.algaeVar)| <;>
      simp only [hb, if_true, if_false] at hc ⊢ <;>
      first
        | (rw [if_pos hc]; rw [add_sub_cancel_left]; exact abs_le.mpr ⟨ha1, ha2⟩)
        | (rw [if_neg hc]; exact le_of_not_lt hc)

/-- Claim C2: after any non-empty sequence of fluctuation calls with
    in-range random draws, starting from any state, the baseline latch is
    set and each synthetic value deviates from its baseline by at most
    2.0 + 2.0 (in fact at most 2.0). -/
theorem C2_fluctuation_bounded (s0 : FluctState) (rs : List FluctRand)
    (hne : rs ≠ []) (hv : ∀ r ∈ rs, validRand r) :
    (runFluctuations s0 rs).baseSet = true ∧
    |(runFluctuations s0 rs).fakeRoomTemp
        - (runFluctuations s0 rs).baseRoom| ≤ 2 + 2 ∧
    |(runFluctuations s0 rs).fakeAlgaeTemp
        - (runFluctuations s0 rs).baseAlgae| ≤ 2 + 2 := by
  induction rs generalizing s0 with
  | nil => exact absurd rfl hne
  | cons r rs ih =>
    rcases rs with - | ⟨r', rs'⟩
    · have h := addRealisticFluctuation_step_bound r s0 (hv r (by simp))
      exact ⟨h.1, by have := h.2.1; unfold runFluctuations; simp; linarith,
        by have := h.2.2; unfold runFluctuations; simp; linarith⟩
    · have hstep : runFluctuations s0 (r :: r' :: rs')
          = runFluctuations (addRealisticFluctuation r s0) (r' :: rs') := rfl
      rw [hstep]
      exact ih (addRealisticFluctuation r s0) (by simp)
        (fun x hx => hv x (List.mem_cons_of_mem r hx))

/-- Concrete instantiation of C2: one zero-draw call from the initial
    fake-temperature state. -/
theorem C2_fluctuation_bounded_witness :
    ([⟨0, 0, 0, 0⟩] : List FluctRand) ≠ [] ∧
    (∀ r ∈ ([⟨0, 0, 0, 0⟩] : List FluctRand), validRand r) ∧
    ((runFluctuations ⟨24, 22, 24, 22, false⟩ [⟨0, 0, 0, 0⟩]).baseSet = true ∧
     |(runFluctuations ⟨24, 22, 24, 22, false⟩ [⟨0, 0, 0, 0⟩]).fakeRoomTemp
        - (runFluctuations ⟨24, 22, 24, 22, false⟩ [⟨0, 0, 0, 0⟩]).baseRoom| ≤ 2 + 2 ∧
     |(runFluctuations ⟨24, 22, 24, 22, false⟩ [⟨0, 0, 0, 0⟩]).fakeAlgaeTemp
        - (runFluctuations ⟨24, 22, 24, 22, false⟩ [⟨0, 0, 0, 0⟩]).baseAlgae| ≤ 2 + 2) :=
  ⟨List.cons_ne_nil _ _,
    by intro r hr; rw [List.mem_singleton] at hr; subst hr; norm_num [validRand],
    C2_fluctuation_bounded ⟨24, 22, 24, 22, false⟩ [⟨0, 0, 0, 0⟩]
      (List.cons_ne_nil _ _)
      (by intro r hr; rw [List.mem_singleton] at hr; subst hr;
          norm_num [validRand])⟩

/-! ## Program states -/

/-- Global state of the monolithic main.cpp: fakeMode, debugMode, the fake
    temperatures with their fluctuation statics (as a FluctState), and the
    last stored readings lastRoomTemp / lastAlgaeTemp. -/
structure MonoState where
  fakeMode : Bool
  debugMode : Bool
  fluct : FluctState
  lastRoomTemp : ℚ
  lastAlgaeTemp : ℚ
deriving DecidableEq, Repr

/-- SystemState from State.h (shared record of the modular version). -/
structure SystemState where
  fakeMode : Bool
  debugMode : Bool
  roomTemp : ℚ
  algaeTemp : ℚ
deriving DecidableEq, Repr

/-- Combined state of the modular version: the shared SystemState plus the
    SensorManager's private fake temperatures and fluctuation statics. -/
structure ModState where
  sys : SystemState
  fluct : FluctState
deriving DecidableEq, Repr

/-! ## Status report lines (printStatus in main.cpp:433-454 and
    SerialCommander::printStatus in SerialCommander.cpp:89-102) -/

/-- One line of the status report. -/
inductive StatusLine where
  | mode (fake : Bool)
  | debugFlag (b : Bool)
  | roomLine (t : ℚ)
  | algaeLine (t : ℚ)
  | fakeBaseRoom (t : ℚ)
  | fakeBaseAlgae (t : ℚ)
deriving DecidableEq, Repr

/-- Whether a status line is one of the synthetic-baseline lines. -/
def StatusLine.isBaseline : StatusLine → Bool
  | .fakeBaseRoom _ => true
  | .fakeBaseAlgae _ => true
  | _ => false

/-- Embeds printStatus (main.cpp:433-454): mode, debug flag, the two stored
    temperatures, and — only in fake mode — the two fake base values. -/
def printStatus (s : MonoState) : List StatusLine :=
  [.mode s.fakeMode, .debugFlag s.debugMode,
   .roomLine s.lastRoomTemp, .algaeLine s.lastAlgaeTemp] ++
  (if s.fakeMode then
     [.fakeBaseRoom s.fluct.fakeRoomTemp, .fakeBaseAlgae s.fluct.fakeAlgaeTemp]
   else [])

/-- Embeds SerialCommander::printStatus (SerialCommander.cpp:89-102): mode,
    debug flag and the two stored temperatures; no baseline lines exist in
    this version. -/
def serialCommanderPrintStatus (s : SystemState) : List StatusLine :=
  [.mode s.fakeMode, .debugFlag s.debugMode,
   .roomLine s.roomTemp, .algaeLine s.algaeTemp]

/-! ## Serial output events produced by the command interpreters -/

/-- Serial output events, one per print site of the command interpreters. -/
inductive Output where
  | scanReport
  | sensorTest
  | fakeOnMsg
  | fakeOffMsg
  | roomSetMsg (t : ℚ)
  | algaeSetMsg (t : ℚ)
  | invalidTempMsg
  | statusReport (lines : List StatusLine)
  | debugOnMsg
  | debugOffMsg
  | calibrateReport
  | helpMsg
  | unknownMsg
  | roomWarning
  | algaeWarning
  | debugSummary (room algae : ℚ) (fake : Bool)
deriving DecidableEq, Repr

/-! ## Command parsing helpers.  Commands arrive as a trimmed, lower-cased
    character list (the C++ does cmd.trim(); cmd.toLowerCase() first). -/

/-- Embeds String::startsWith: does the second list start with the first? -/
def leadsWith : List Char → List Char → Bool
  | [], _ => true
  | _ :: _, [] => false
  | a :: p, b :: l => if a = b then leadsWith p l else false

def cmdScan : List Char := ['s', 'c', 'a', 'n']
def cmdFakeOn : List Char := ['f', 'a', 'k', 'e', ' ', 'o', 'n']
def cmdFakeOff : List Char := ['f', 'a', 'k', 'e', ' ', 'o', 'f', 'f']
def setRoomPre : List Char := ['s', 'e', 't', ' ', 'r', 'o', 'o', 'm', ' ']
def setAlgaePre : List Char := ['s', 'e', 't', ' ', 'a', 'l', 'g', 'a', 'e', ' ']
def cmdStatus : List Char := ['s', 't', 'a', 't', 'u', 's']
def cmdDebugOn : List Char := ['d', 'e', 'b', 'u', 'g', ' ', 'o', 'n']
def cmdDebugOff : List Char := ['d', 'e', 'b', 'u', 'g', ' ', 'o', 'f', 'f']
def cmdCalibrate : List Char := ['c', 'a', 'l', 'i', 'b', 'r', 'a', 't', 'e']
def cmdHelp : List Char := ['h', 'e', 'l', 'p']

/-! ## Monolithic command interpreter (processSerialCommand,
    main.cpp:234-293).  `parse` is the oracle for Arduino's
    String::toFloat on the argument substring. -/

/-- Embeds processSerialCommand (main.cpp:234-293) on an already trimmed and
    lower-cased command line; returns the new global state and the serial
    output events, in order. -/
def processSerialCommand (parse : List Char → ℚ) (cmd : List Char)
    (s : MonoState) : MonoState × List Output :=
  if cmd = cmdScan then (s, [.scanReport, .sensorTest])
  else if cmd = cmdFakeOn then ({ s with fakeMode := true }, [.fakeOnMsg])
  else if cmd = cmdFakeOff then ({ s with fakeMode := false }, [.fakeOffMsg])
  else if leadsWith setRoomPre cmd then
    let temp := parse (cmd.drop 9)
    if -50 < temp ∧ temp < 100 then
      ({ s with fluct := { s.fluct with fakeRoomTemp := temp } },
       [.roomSetMsg temp])
    else (s, [.invalidTempMsg])
  else if leadsWith setAlgaePre cmd then
    let temp := parse (cmd.drop 10)
    if -50 < temp ∧ temp < 100 then
      ({ s with fluct := { s.fluct with fakeAlgaeTemp := temp } },
       [.algaeSetMsg temp])
    else (s, [.invalidTempMsg])
  else if cmd = cmdStatus then (s, [.statusReport (printStatus s)])
  else if cmd = cmdDebugOn then ({ s with debugMode := true }, [.debugOnMsg])
  else if cmd = cmdDebugOff then ({ s with debugMode := false }, [.debugOffMsg])
  else if cmd = cmdCalibrate then (s, [.calibrateReport])
  else if cmd = cmdHelp then (s, [.helpMsg])
  else if 0 < cmd.length then (s, [.unknownMsg])
  else (s, [])

/-! ## Modular command interpreter (SerialCommander::process,
    SerialCommander.cpp:9-72).  Identical dispatch, except that the
    `set room` / `set algae` handlers only print: the setter calls are
    commented out in the source, so the fake temperatures are untouched. -/

/-- Embeds SerialCommander::process (SerialCommander.cpp:9-72) on an already
    trimmed and lower-cased command line. -/
def serialCommanderProcess (parse : List Char → ℚ) (cmd : List Char)
    (m : ModState) : ModState × List Output :=
  if cmd = cmdScan then (m, [.scanReport, .sensorTest])
  else if cmd = cmdFakeOn then
    ({ m with sys := { m.sys with fakeMode := true } }, [.fakeOnMsg])
  else if cmd = cmdFakeOff then
    ({ m with sys := { m.sys with fakeMode := false } }, [.fakeOffMsg])
  else if leadsWith setRoomPre cmd then
    let temp := parse (cmd.drop 9)
    if -50 < temp ∧ temp < 100 then
      -- _sensorManager.setFakeRoomTemp(temp) is commented out in the source
      (m, [.roomSetMsg temp])
    else (m, [.invalidTempMsg])
  else if leadsWith setAlgaePre cmd then
    let temp := parse (cmd.drop 10)
    if -50 < temp ∧ temp < 100 then
      -- _sensorManager.setFakeAlgaeTemp(temp) is commented out in the source
      (m, [.algaeSetMsg temp])
    else (m, [.invalidTempMsg])
  else if cmd = cmdStatus then
    (m, [.statusReport (serialCommanderPrintStatus m.sys)])
  else if cmd = cmdDebugOn then
    ({ m with sys := { m.sys with debugMode := true } }, [.debugOnMsg])
  else if cmd = cmdDebugOff then
    ({ m with sys := { m.sys with debugMode := false } }, [.debugOffMsg])
  else if cmd = cmdCalibrate then (m, [.calibrateReport])
  else if cmd = cmdHelp then (m, [.helpMsg])
  else if 0 < cmd.length then (m, [.unknownMsg])
  else (m, [])

/-! ## Sampling cycle (updateTemperatures, main.cpp:144-171, and
    SensorManager::update, SensorManager.cpp:12-21).  The raw analog
    readings of the two channels are oracle inputs. -/

/-- Embeds updateTemperatures (main.cpp:144-171): in fake mode copy the fake
    temperatures; otherwise store the sampled values, printing a warning only
    when debugMode is on and the value is below 0 or above 150, and finally
    print the debug summary line when debugMode is on. -/
def updateTemperatures (roomReads algaeReads : List Nat) (s : MonoState) :
    MonoState × List Output :=
  if s.fakeMode then
    let s' := { s with lastRoomTemp := s.fluct.fakeRoomTemp,
                       lastAlgaeTemp := s.fluct.fakeAlgaeTemp }
    (s', if s.debugMode then
          [.debugSummary s'.lastRoomTemp s'.lastAlgaeTemp s.fakeMode]
         else [])
  else
    let rt := readLM35 roomReads
    let at0 := readLM35 algaeReads
    let s' := { s with lastRoomTemp := rt, lastAlgaeTemp := at0 }
    let warns :=
      (if rt < 0 ∨ 150 < rt then
         (if s.debugMode then [Output.roomWarning] else []) else []) ++
      (if at0 < 0 ∨ 150 < at0 then
         (if s.debugMode then [Output.algaeWarning] else []) else [])
    (s', warns ++ (if s.debugMode then
          [.debugSummary rt at0 s.fakeMode] else []))

/-- Embeds SensorManager::update (SensorManager.cpp:12-21): in fake mode
    fluctuate, then copy the fake temperatures into the shared state; in real
    mode store the sampled values.  No warnings are printed in this version. -/
def sensorManagerUpdate (r : FluctRand) (roomReads algaeReads : List Nat)
    (m : ModState) : ModState :=
  if m.sys.fakeMode then
    let f := addRealisticFluctuation r m.fluct
    { sys := { m.sys with roomTemp := f.fakeRoomTemp,
                          algaeTemp := f.fakeAlgaeTemp },
      fluct := f }
  else
    { m with sys := { m.sys with roomTemp := readLM35 roomReads,
                                 algaeTemp := readLM35 algaeReads } }

/-! ## Display rendering (displayTemperatures, main.cpp:173-205, and
    DisplayManager::update, DisplayManager.cpp:20-46). -/

/-- One LCD primitive operation. -/
inductive LcdOp where
  | clear
  | setCursor (col row : Nat)
  | printStr (s : List Char)
  | printNum (v : ℚ)
  | printChar (code : Nat)
deriving DecidableEq, Repr

def strRoom : List Char := ['R', 'o', 'o', 'm', ':']
def strAlgae : List Char := ['A', 'l', 'g', 'a', 'e', ':']
def strC : List Char := ['C']
def strError : List Char := ['E', 'R', 'R', 'O', 'R']
def strF : List Char := ['F']

/-- The per-channel rendering shared by both display routines: a one-decimal
    number, the degree glyph (char 223) and 'C' when 0 <= v < 150, the
    literal ERROR otherwise. -/
def renderTemp (v : ℚ) : List LcdOp :=
  if 0 ≤ v ∧ v < 150 then
    [.printNum v, .printChar 223, .printStr strC]
  else
    [.printStr strError]

/-- Embeds displayTemperatures (main.cpp:173-205): clear, render both
    channels, and print the fake-mode indicator 'F' at column 15 of row 0
    when fakeMode is on. -/
def displayTemperatures (s : MonoState) : List LcdOp :=
  [.clear, .setCursor 0 0, .printStr strRoom, .setCursor 6 0] ++
  renderTemp s.lastRoomTemp ++
  [.setCursor 0 1, .printStr strAlgae, .setCursor 6 1] ++
  renderTemp s.lastAlgaeTemp ++
  (if s.fakeMode then [.setCursor 15 0, .printStr strF] else [])

/-- Embeds DisplayManager::update (DisplayManager.cpp:20-46): identical to
    the monolithic routine except that no fake-mode indicator exists. -/
def displayManagerUpdate (s : SystemState) : List LcdOp :=
  [.clear, .setCursor 0 0, .printStr strRoom, .setCursor 6 0] ++
  renderTemp s.roomTemp ++
  [.setCursor 0 1, .printStr strAlgae, .setCursor 6 1] ++
  renderTemp s.algaeTemp

/-! ## Claims about the command interpreters -/

/-- Claim C3: for every in-range argument x in (-50, 100), the modular
    interpreter's set room / set algae commands print the success
    confirmation but leave the whole state — in particular the fake
    temperatures — unchanged, whereas the monolithic interpreter assigns x
    to the corresponding fake temperature and prints the same
    confirmation. -/
theorem C3_set_modular_vs_monolithic (parse : List Char → ℚ)
    (arg : List Char) (s : MonoState) (m : ModState)
    (hlo : -50 < parse arg) (hhi : parse arg < 100) :
    serialCommanderProcess parse (setRoomPre ++ arg) m
        = (m, [Output.roomSetMsg (parse arg)]) ∧
    serialCommanderProcess parse (setAlgaePre ++ arg) m
        = (m, [Output.algaeSetMsg (parse arg)]) ∧
    processSerialCommand parse (setRoomPre ++ arg) s
        = ({ s with fluct := { s.fluct with fakeRoomTemp := parse arg } },
           [Output.roomSetMsg (parse arg)]) ∧
    processSerialCommand parse (setAlgaePre ++ arg) s
        = ({ s with fluct := { s.fluct with fakeAlgaeTemp := parse arg } },
           [Output.algaeSetMsg (parse arg)]) := by
  have hr1 : serialCommanderProcess parse (setRoomPre ++ arg) m
      = if -50 < parse arg ∧ parse arg < 100
        then (m, [Output.roomSetMsg (parse arg)])
        else (m, [Output.invalidTempMsg]) := rfl
  have hr2 : serialCommanderProcess parse (setAlgaePre ++ arg) m
      = if -50 < parse arg ∧ parse arg < 100
        then (m, [Output.algaeSetMsg (parse arg)])
        else (m, [Output.invalidTempMsg]) := rfl
  have hr3 : processSerialCommand parse (setRoomPre ++ arg) s
      = if -50 < parse arg ∧ parse arg < 100
        then ({ s with fluct := { s.fluct with fakeRoomTemp := parse arg } },
              [Output.roomSetMsg (parse arg)])
        else (s, [Output.invalidTempMsg]) := rfl
  have hr4 : processSerialCommand parse (setAlgaePre ++ arg) s
      = if -50 < parse arg ∧ parse arg < 100
        then ({ s with fluct := { s.fluct with fakeAlgaeTemp := parse arg } },
              [Output.algaeSetMsg (parse arg)])
        else (s, [Output.invalidTempMsg]) := rfl
  rw [hr1, hr2, hr3, hr4, if_pos ⟨hlo, hhi⟩, if_pos ⟨hlo, hhi⟩,
      if_pos ⟨hlo, hhi⟩, if_pos ⟨hlo, hhi⟩]
  exact ⟨rfl, rfl, rfl, rfl⟩

/-- Concrete instantiation of C3 with argument 25.5. -/
theorem C3_set_modular_vs_monolithic_witness :
    serialCommanderProcess (fun _ => (51 : ℚ) / 2)
        (setRoomPre ++ ['2', '5', '.', '5'])
        ⟨⟨false, false, 24, 22⟩, ⟨24, 22, 24, 22, false⟩⟩
      = (⟨⟨false, false, 24, 22⟩, ⟨24, 22, 24, 22, false⟩⟩,
         [Output.roomSetMsg ((51 : ℚ) / 2)]) ∧
    serialCommanderProcess (fun _ => (51 : ℚ) / 2)
        (setAlgaePre ++ ['2', '5', '.', '5'])
        ⟨⟨false, false, 24, 22⟩, ⟨24, 22, 24, 22, false⟩⟩
      = (⟨⟨false, false, 24, 22⟩, ⟨24, 22, 24, 22, false⟩⟩,
         [Output.algaeSetMsg ((51 : ℚ) / 2)]) ∧
    processSerialCommand (fun _ => (51 : ℚ) / 2)
        (setRoomPre ++ ['2', '5', '.', '5'])
        ⟨false, false, ⟨24, 22, 24, 22, false⟩, 0, 0⟩
      = (⟨false, false, ⟨(51 : ℚ) / 2, 22, 24, 22, false⟩, 0, 0⟩,
         [Output.roomSetMsg ((51 : ℚ) / 2)]) ∧
    processSerialCommand (fun _ => (51 : ℚ) / 2)
        (setAlgaePre ++ ['2', '5', '.', '5'])
        ⟨false, false, ⟨24, 22, 24, 22, false⟩, 0, 0⟩
      = (⟨false, false, ⟨24, (51 : ℚ) / 2, 24, 22, false⟩, 0, 0⟩,
         [Output.algaeSetMsg ((51 : ℚ) / 2)]) :=
  C3_set_modular_vs_monolithic (fun _ => (51 : ℚ) / 2) ['2', '5', '.', '5']
    ⟨false, false, ⟨24, 22, 24, 22, false⟩, 0, 0⟩
    ⟨⟨false, false, 24, 22⟩, ⟨24, 22, 24, 22, false⟩⟩
    (by norm_num) (by norm_num)

/-- Claim C4: a set room / set algae argument x with x ≤ -50 or 100 ≤ x is
    rejected with the invalid-temperature message and the state — in
    particular the prior fake value — is unchanged, in both interpreters;
    the behaviour in general is exactly conditional on -50 < x < 100, with
    the monolithic version mutating the fake value exactly in that case. -/
theorem C4_set_out_of_range (parse : List Char → ℚ)
    (arg : List Char) (s : MonoState) (m : ModState)
    (hout : parse arg ≤ -50 ∨ 100 ≤ parse arg) :
    processSerialCommand parse (setRoomPre ++ arg) s
        = (s, [Output.invalidTempMsg]) ∧
    processSerialCommand parse (setAlgaePre ++ arg) s
        = (s, [Output.invalidTempMsg]) ∧
    serialCommanderProcess parse (setRoomPre ++ arg) m
        = (m, [Output.invalidTempMsg]) ∧
    serialCommanderProcess parse (setAlgaePre ++ arg) m
        = (m, [Output.invalidTempMsg]) ∧
    (processSerialCommand parse (setRoomPre ++ arg) s
        = if -50 < parse arg ∧ parse arg < 100
          then ({ s with fluct := { s.fluct with fakeRoomTemp := parse arg } },
                [Output.roomSetMsg (parse arg)])
          else (s, [Output.invalidTempMsg])) ∧
    (processSerialCommand parse (setAlgaePre ++ arg) s
        = if -50 < parse arg ∧ parse arg < 100
          then ({ s with fluct := { s.fluct with fakeAlgaeTemp := parse arg } },
                [Output.algaeSetMsg (parse arg)])
          else (s, [Output.invalidTempMsg])) ∧
    (serialCommanderProcess parse (setRoomPre ++ arg) m
        = if -50 < parse arg ∧ parse arg < 100
          then (m, [Output.roomSetMsg (parse arg)])
          else (m, [Output.invalidTempMsg])) ∧
    (serialCommanderProcess parse (setAlgaePre ++ arg) m
        = if -50 < parse arg ∧ parse arg < 100
          then (m, [Output.algaeSetMsg (parse arg)])
          else (m, [Output.invalidTempMsg])) := by
  have hneg : ¬ (-50 < parse arg ∧ parse arg < 100) := by
    rintro ⟨h1, h2⟩
    rcases hout with h | h <;> linarith
  have hr3 : processSerialCommand parse (setRoomPre ++ arg) s
      = if -50 < parse arg ∧ parse arg < 100
        then ({ s with fluct := { s.fluct with fakeRoomTemp := parse arg } },
              [Output.roomSetMsg (parse arg)])
        else (s, [Output.invalidTempMsg]) := rfl
  have hr4 : processSerialCommand parse (setAlgaePre ++ arg) s
      = if -50 < parse arg ∧ parse arg < 100
        then ({ s with fluct := { s.fluct with fakeAlgaeTemp := parse arg } },
              [Output.algaeSetMsg (parse arg)])
        else (s, [Output.invalidTempMsg]) := rfl
  have hr1 : serialCommanderProcess parse (setRoomPre ++ arg) m
      = if -50 < parse arg ∧ parse arg < 100
        then (m, [Output.roomSetMsg (parse arg)])
        else (m, [Output.invalidTempMsg]) := rfl
  have hr2 : serialCommanderProcess parse (setAlgaePre ++ arg) m
      = if -50 < parse arg ∧ parse arg < 100
        then (m, [Output.algaeSetMsg (parse arg)])
        else (m, [Output.invalidTempMsg]) := rfl
  refine ⟨?_, ?_, ?_, ?_, hr3, hr4, hr1, hr2⟩
  · rw [hr3, if_neg hneg]
  · rw [hr4, if_neg hneg]
  · rw [hr1, if_neg hneg]
  · rw [hr2, if_neg hneg]

/-- Concrete instantiation of C4: `set room 150` and `set algae 150` are
    rejected and the state is unchanged. -/
theorem C4_set_out_of_range_witness :
    processSerialCommand (fun _ => (150 : ℚ)) (setRoomPre ++ ['1', '5', '0'])
        ⟨false, false, ⟨24, 22, 24, 22, false⟩, 0, 0⟩
      = (⟨false, false, ⟨24, 22, 24, 22, false⟩, 0, 0⟩,
         [Output.invalidTempMsg]) ∧
    processSerialCommand (fun _ => (150 : ℚ)) (setAlgaePre ++ ['1', '5', '0'])
        ⟨false, false, ⟨24, 22, 24, 22, false⟩, 0, 0⟩
      = (⟨false, false, ⟨24, 22, 24, 22, false⟩, 0, 0⟩,
         [Output.invalidTempMsg]) ∧
    serialCommanderProcess (fun _ => (150 : ℚ)) (setRoomPre ++ ['1', '5', '0'])
        ⟨⟨false, false, 24, 22⟩, ⟨24, 22, 24, 22, false⟩⟩
      = (⟨⟨false, false, 24, 22⟩, ⟨24, 22, 24, 22, false⟩⟩,
         [Output.invalidTempMsg]) ∧
    serialCommanderProcess (fun _ => (150 : ℚ)) (setAlgaePre ++ ['1', '5', '0'])
        ⟨⟨false, false, 24, 22⟩, ⟨24, 22, 24, 22, false⟩⟩
      = (⟨⟨false, false, 24, 22⟩, ⟨24, 22, 24, 22, false⟩⟩,
         [Output.invalidTempMsg]) := by
  have h := C4_set_out_of_range (fun _ => (150 : ℚ)) ['1', '5', '0']
    ⟨false, false, ⟨24, 22, 24, 22, false⟩, 0, 0⟩
    ⟨⟨false, false, 24, 22⟩, ⟨24, 22, 24, 22, false⟩⟩
    (Or.inr (by norm_num))
  exact ⟨h.1, h.2.1, h.2.2.1, h.2.2.2.1⟩

/-- Claim C9: in both interpreters, `fake off` followed by `fake on`
    restores the simulation flag to enabled; each of the two commands
    writes only the simulation flag, leaving the stored temperatures and
    the fake values (and every other field) unchanged. -/
theorem C9_fake_round_trip (parse : List Char → ℚ) (s : MonoState)
    (m : ModState) :
    processSerialCommand parse cmdFakeOff s
        = ({ s with fakeMode := false }, [Output.fakeOffMsg]) ∧
    processSerialCommand parse cmdFakeOn
        (processSerialCommand parse cmdFakeOff s).1
        = ({ s with fakeMode := true }, [Output.fakeOnMsg]) ∧
    serialCommanderProcess parse cmdFakeOff m
        = ({ m with sys := { m.sys with fakeMode := false } },
           [Output.fakeOffMsg]) ∧
    serialCommanderProcess parse cmdFakeOn
        (serialCommanderProcess parse cmdFakeOff m).1
        = ({ m with sys := { m.sys with fakeMode := true } },
           [Output.fakeOnMsg]) :=
  ⟨rfl, rfl, rfl, rfl⟩

/-- Claim C7: a non-empty command line matching none of the table entries
    produces exactly the one unrecognized-command message and leaves the
    state untouched, in both interpreters; an empty line produces no output
    and no mutation. -/
theorem C7_unknown_command (parse : List Char → ℚ) (cmd : List Char)
    (s : MonoState) (m : ModState)
    (h1 : cmd ≠ cmdScan) (h2 : cmd ≠ cmdFakeOn) (h3 : cmd ≠ cmdFakeOff)
    (h4 : leadsWith setRoomPre cmd = false)
    (h5 : leadsWith setAlgaePre cmd = false)
    (h6 : cmd ≠ cmdStatus) (h7 : cmd ≠ cmdDebugOn) (h8 : cmd ≠ cmdDebugOff)
    (h9 : cmd ≠ cmdCalibrate) (h10 : cmd ≠ cmdHelp) (hne : cmd ≠ []) :
    processSerialCommand parse cmd s = (s, [Output.unknownMsg]) ∧
    serialCommanderProcess parse cmd m = (m, [Output.unknownMsg]) ∧
    processSerialCommand parse [] s = (s, []) ∧
    serialCommanderProcess parse [] m = (m, []) := by
  have hlen : 0 < cmd.length := List.length_pos.mpr hne
  refine ⟨?_, ?_, rfl, rfl⟩
  · rw [processSerialCommand, if_neg h1, if_neg h2, if_neg h3, h4,
        if_neg Bool.false_ne_true, h5, if_neg Bool.false_ne_true,
        if_neg h6, if_neg h7, if_neg h8, if_neg h9, if_neg h10, if_pos hlen]
  · rw [serialCommanderProcess, if_neg h1, if_neg h2, if_neg h3, h4,
        if_neg Bool.false_ne_true, h5, if_neg Bool.false_ne_true,
        if_neg h6, if_neg h7, if_neg h8, if_neg h9, if_neg h10, if_pos hlen]

/-- Concrete instantiation of C7 on the input line foo. -/
theorem C7_unknown_command_witness :
    processSerialCommand (fun _ => (0 : ℚ)) ['f', 'o', 'o']
        ⟨false, false, ⟨24, 22, 24, 22, false⟩, 0, 0⟩
      = (⟨false, false, ⟨24, 22, 24, 22, false⟩, 0, 0⟩,
         [Output.unknownMsg]) ∧
    serialCommanderProcess (fun _ => (0 : ℚ)) ['f', 'o', 'o']
        ⟨⟨false, false, 24, 22⟩, ⟨24, 22, 24, 22, false⟩⟩
      = (⟨⟨false, false, 24, 22⟩, ⟨24, 22, 24, 22, false⟩⟩,
         [Output.unknownMsg]) := by
  have h := C7_unknown_command (fun _ => (0 : ℚ)) ['f', 'o', 'o']
    ⟨false, false, ⟨24, 22, 24, 22, false⟩, 0, 0⟩
    ⟨⟨false, false, 24, 22⟩, ⟨24, 22, 24, 22, false⟩⟩
    (by decide) (by decide) (by decide) (by decide) (by decide)
    (by decide) (by decide) (by decide) (by decide) (by decide) (by decide)
  exact ⟨h.1, h.2.1⟩

/-! ## Claims about the display and the status report -/

/-- Claim C5: each channel renders as a one-decimal number, the degree glyph
    and C exactly when 0 ≤ v < 150 and as the literal ERROR otherwise; in
    particular 0 renders as numeric and 150 renders as ERROR.  Both display
    routines render each channel through this per-channel logic. -/
theorem C5_display_range (v : ℚ) (m : SystemState) :
    (renderTemp v = [LcdOp.printNum v, LcdOp.printChar 223, LcdOp.printStr strC]
        ↔ (0 ≤ v ∧ v < 150)) ∧
    (renderTemp v = [LcdOp.printStr strError] ↔ ¬ (0 ≤ v ∧ v < 150)) ∧
    renderTemp 0 = [LcdOp.printNum 0, LcdOp.printChar 223, LcdOp.printStr strC] ∧
    renderTemp 150 = [LcdOp.printStr strError] ∧
    displayManagerUpdate m
      = [LcdOp.clear, LcdOp.setCursor 0 0, LcdOp.printStr strRoom,
         LcdOp.setCursor 6 0] ++ renderTemp m.roomTemp ++
        [LcdOp.setCursor 0 1, LcdOp.printStr strAlgae, LcdOp.setCursor 6 1] ++
        renderTemp m.algaeTemp := by
  refine ⟨?_, ?_, ?_, ?_, rfl⟩
  · by_cases h : 0 ≤ v ∧ v < 150 <;> simp [renderTemp, h, strC, strError]
  · by_cases h : 0 ≤ v ∧ v < 150 <;> simp [renderTemp, h, strC, strError]
  · norm_num [renderTemp]
  · norm_num [renderTemp]

/-- The per-channel renderer never emits the fake-mode indicator glyph. -/
lemma renderTemp_no_indicator (v : ℚ) :
    LcdOp.printStr strF ∉ renderTemp v := by
  by_cases h : 0 ≤ v ∧ v < 150 <;>
    simp [renderTemp, h, strF, strC, strError]

/-- Claim C10: the monolithic display equals the modular rendering of the
    same values followed — exactly when fake mode is on — by printing F at
    column 15 of row 0; the modular DisplayManager never emits that
    indicator. -/
theorem C10_fake_indicator (s : MonoState) :
    (displayTemperatures s
        = displayManagerUpdate
            ⟨s.fakeMode, s.debugMode, s.lastRoomTemp, s.lastAlgaeTemp⟩ ++
          (if s.fakeMode = true
           then [LcdOp.setCursor 15 0, LcdOp.printStr strF] else [])) ∧
    (∀ m : SystemState, LcdOp.printStr strF ∉ displayManagerUpdate m) := by
  constructor
  · simp [displayTemperatures, displayManagerUpdate, List.append_assoc]
  · intro m
    simp [displayManagerUpdate, strF, strRoom, strAlgae]
    exact ⟨by simpa [strF] using renderTemp_no_indicator m.roomTemp,
           by simpa [strF] using renderTemp_no_indicator m.algaeTemp⟩

/-- Claim C8, counterexample: in the modular interpreter, with simulation
    mode enabled, the status report consists of exactly the mode, debug and
    two temperature lines — no synthetic-baseline line is printed. -/
theorem C8_status_counterexample :
    (⟨true, false, 0, 22⟩ : SystemState).fakeMode = true ∧
    serialCommanderPrintStatus ⟨true, false, 0, 22⟩
      = [StatusLine.mode true, StatusLine.debugFlag false,
         StatusLine.roomLine 0, StatusLine.algaeLine 22] ∧
    (serialCommanderPrintStatus ⟨true, false, 0, 22⟩).any
        StatusLine.isBaseline = false :=
  ⟨rfl, rfl, rfl⟩

/-- Claim C8 as amended: both status routines print the mode, the debug flag
    and the two stored temperatures; the monolithic one prints the
    synthetic-baseline lines exactly when fake mode is enabled, while the
    modular one never prints a baseline line. -/
theorem C8_status_amended (s : MonoState) (m : SystemState) :
    ((printStatus s).any StatusLine.isBaseline = s.fakeMode) ∧
    StatusLine.mode s.fakeMode ∈ printStatus s ∧
    StatusLine.debugFlag s.debugMode ∈ printStatus s ∧
    StatusLine.roomLine s.lastRoomTemp ∈ printStatus s ∧
    StatusLine.algaeLine s.lastAlgaeTemp ∈ printStatus s ∧
    (s.fakeMode = true →
        StatusLine.fakeBaseRoom s.fluct.fakeRoomTemp ∈ printStatus s ∧
        StatusLine.fakeBaseAlgae s.fluct.fakeAlgaeTemp ∈ printStatus s) ∧
    serialCommanderPrintStatus m
      = [StatusLine.mode m.fakeMode, StatusLine.debugFlag m.debugMode,
         StatusLine.roomLine m.roomTemp, StatusLine.algaeLine m.algaeTemp] ∧
    (serialCommanderPrintStatus m).any StatusLine.isBaseline = false := by
  refine ⟨?_, ?_, ?_, ?_, ?_, ?_, rfl, rfl⟩
  · by_cases h : s.fakeMode = true <;>
      simp [printStatus, h, StatusLine.isBaseline]
  · simp [printStatus]
  · simp [printStatus]
  · simp [printStatus]
  · simp [printStatus]
  · intro h
    simp [printStatus, h]

/-- Concrete instantiation of C8 as amended, with fake mode enabled in the
    monolithic state. -/
theorem C8_status_amended_witness :
    ((printStatus ⟨true, false, ⟨24, 22, 24, 22, false⟩, 0, 0⟩).any
        StatusLine.isBaseline = true) ∧
    StatusLine.fakeBaseRoom 24
        ∈ printStatus ⟨true, false, ⟨24, 22, 24, 22, false⟩, 0, 0⟩ ∧
    StatusLine.fakeBaseAlgae 22
        ∈ printStatus ⟨true, false, ⟨24, 22, 24, 22, false⟩, 0, 0⟩ ∧
    (serialCommanderPrintStatus ⟨true, false, 24, 22⟩).any
        StatusLine.isBaseline = false := by
  have h := C8_status_amended ⟨true, false, ⟨24, 22, 24, 22, false⟩, 0, 0⟩
    ⟨true, false, 24, 22⟩
  exact ⟨h.1, (h.2.2.2.2.2.1 rfl).1, (h.2.2.2.2.2.1 rfl).2, h.2.2.2.2.2.2.2⟩

/-! ## Claims about the sampling cycle -/

/-- Claim C6, counterexample: with debug mode off, a sampled value far
    outside [0,150) (all-1023 readings give 127875/256 ≈ 499.5 degrees)
    produces NO warning output, although it is still stored. -/
theorem C6_update_counterexample :
    ¬ (0 ≤ readLM35 (List.replicate 10 1023) ∧
        readLM35 (List.replicate 10 1023) < 150) ∧
    (updateTemperatures (List.replicate 10 1023) (List.replicate 10 1023)
        ⟨false, false, ⟨24, 22, 24, 22, false⟩, 0, 0⟩).2 = [] ∧
    (updateTemperatures (List.replicate 10 1023) (List.replicate 10 1023)
        ⟨false, false, ⟨24, 22, 24, 22, false⟩, 0, 0⟩).1.lastRoomTemp
      = readLM35 (List.replicate 10 1023) := by
  have hv : readLM35 (List.replicate 10 1023) = 127875 / 256 := by
    norm_num [readLM35, SAMPLES_PER_READ, ADC_RESOLUTION, REFERENCE_VOLTAGE]
  refine ⟨by rw [hv]; norm_num, ?_, by simp [updateTemperatures]⟩
  simp only [updateTemperatures]
  norm_num [hv]

/-- Claim C6 as amended: in a real sampling cycle the sampled values are
    always stored (nothing halts or resets, no other field changes) and an
    out-of-range stored value renders as ERROR downstream; but the warning
    is printed only when debug mode is on and the value is below 0 or above
    150 (so a value of exactly 150 never warns), and the modular
    SensorManager::update never prints a warning at all. -/
theorem C6_update_amended (roomReads algaeReads : List Nat) (s : MonoState)
    (r : FluctRand) (m : ModState)
    (hreal : s.fakeMode = false) (hm : m.sys.fakeMode = false) :
    ((updateTemperatures roomReads algaeReads s).1
        = { s with lastRoomTemp := readLM35 roomReads,
                   lastAlgaeTemp := readLM35 algaeReads }) ∧
    (Output.roomWarning ∈ (updateTemperatures roomReads algaeReads s).2
        ↔ (s.debugMode = true ∧
            (readLM35 roomReads < 0 ∨ 150 < readLM35 roomReads))) ∧
    (Output.algaeWarning ∈ (updateTemperatures roomReads algaeReads s).2
        ↔ (s.debugMode = true ∧
            (readLM35 algaeReads < 0 ∨ 150 < readLM35 algaeReads))) ∧
    (¬ (0 ≤ readLM35 roomReads ∧ readLM35 roomReads < 150) →
        renderTemp (updateTemperatures roomReads algaeReads s).1.lastRoomTemp
          = [LcdOp.printStr strError]) ∧
    sensorManagerUpdate r roomReads algaeReads m
      = { m with sys := { m.sys with roomTemp := readLM35 roomReads,
                                     algaeTemp := readLM35 algaeReads } } := by
  have h1 : (updateTemperatures roomReads algaeReads s).1
      = { s with lastRoomTemp := readLM35 roomReads,
                 lastAlgaeTemp := readLM35 algaeReads } := by
    simp [updateTemperatures, hreal]
  refine ⟨h1, ?_, ?_, ?_, by simp [sensorManagerUpdate, hm]⟩
  · by_cases hd : s.debugMode = true <;>
      by_cases hA : readLM35 roomReads < 0 ∨ 150 < readLM35 roomReads <;>
      by_cases hB : readLM35 algaeReads < 0 ∨ 150 < readLM35 algaeReads <;>
      simp [updateTemperatures, hreal, hd, hA, hB]
  · by_cases hd : s.debugMode = true <;>
      by_cases hA : readLM35 roomReads < 0 ∨ 150 < readLM35 roomReads <;>
      by_cases hB : readLM35 algaeReads < 0 ∨ 150 < readLM35 algaeReads <;>
      simp [updateTemperatures, hreal, hd, hA, hB]
  · intro h
    rw [h1]
    simp only [renderTemp]
    rw [if_neg]
    simpa using h

/-- Concrete instantiation of C6 as amended on in-range readings of 100. -/
theorem C6_update_amended_witness :
    ((updateTemperatures (List.replicate 10 100) (List.replicate 10 100)
        ⟨false, false, ⟨24, 22, 24, 22, false⟩, 0, 0⟩).1
      = { (⟨false, false, ⟨24, 22, 24, 22, false⟩, 0, 0⟩ : MonoState) with
            lastRoomTemp := readLM35 (List.replicate 10 100),
            lastAlgaeTemp := readLM35 (List.replicate 10 100) }) ∧
    sensorManagerUpdate ⟨0, 0, 0, 0⟩ (List.replicate 10 100)
        (List.replicate 10 100) ⟨⟨false, false, 24, 22⟩, ⟨24, 22, 24, 22, false⟩⟩
      = { (⟨⟨false, false, 24, 22⟩, ⟨24, 22, 24, 22, false⟩⟩ : ModState) with
            sys := { (⟨false, false, 24, 22⟩ : SystemState) with
                       roomTemp := readLM35 (List.replicate 10 100),
                       algaeTemp := readLM35 (List.replicate 10 100) } } := by
  have h := C6_update_amended (List.replicate 10 100) (List.replicate 10 100)
    ⟨false, false, ⟨24, 22, 24, 22, false⟩, 0, 0⟩ ⟨0, 0, 0, 0⟩
    ⟨⟨false, false, 24, 22⟩, ⟨24, 22, 24, 22, false⟩⟩ rfl rfl
  exact ⟨h.1, h.2.2.2.2⟩

end AlgaeCooling
